import Mathlib

/-!
Verification of the stack-grouping pipeline (stack-grouper-poc-v3.jsx).

This file is a shallow embedding, in Lean 4, of the parts of the program that
the checked properties talk about:

* the deterministic Atomic Unit Builder (`createAtomicUnits` and its helper
  heuristics `isContinuationSignal`, `isReplyLikeMessage`),
* the batched Unit Validator (`applyBatchAdjustments`,
  `postMergeAdjacentUnits`, and the orchestration `handleValidateUnits`),
* the per-message Segment State Machine (`checkStructuralSignals`,
  `parseClassificationResponse`, `classifyWithLLM`, `segmentMessages`).

Modelling conventions:

* JS strings are Lean `String`s; the case-insensitive regular expressions of
  the source are implemented over `List Char` with an ASCII lower-casing map
  (all the heuristics and all concrete inputs used below are ASCII).
* Timestamps (`created_at`, ISO strings turned into `Date`s by the source) are
  integers in milliseconds.  The source compares `timeDiff = ms / 60000`
  (a float) against minute thresholds with strict `<`; we compare the
  millisecond difference against `minutes * 60000`, which is equivalent for
  exact arithmetic.  Length-ratio tests (`< 0.3 * n`, `< 0.5 * n`) are scaled
  the same way.
* `generateUUID` returns a fresh random identifier; it is modelled by a
  counter threaded through every function that creates units or segments.
  Distinct counters give identifiers that differ in their first six
  characters, like distinct UUIDs.
* The classification oracle (`callAnthropic` composed with the repair-tolerant
  `parseJSONSafe`) is modelled as a function producing either an error (a
  thrown network/timeout/parse exception) or an already-decoded JSON body.
* Wall-clock fields that no checked property depends on (`createdAt`,
  `lastActivityAt`, `annotatedAt`) are modelled as the constant 0.
* Confidence values are exact rationals (the source uses JS floats; no checked
  property depends on float rounding).
-/

namespace StackGrouping

/-! ## JS string semantics helpers -/

/-- ASCII fragment of JS `toLowerCase`. -/
def asciiLower (c : Char) : Char :=
  if 'A' ≤ c ∧ c ≤ 'Z' then Char.ofNat (c.toNat + 32) else c

/-- ASCII whitespace recognised by JS `trim`. -/
def isSpaceChar (c : Char) : Bool :=
  c == ' ' || c == '\t' || c == '\n' || c == '\r'

/-- JS `trim` over a character list. -/
def trimChars (l : List Char) : List Char :=
  ((l.dropWhile isSpaceChar).reverse.dropWhile isSpaceChar).reverse

/-- The source's `content?.toLowerCase().trim() || ""`. -/
def lowerTrim (s : String) : List Char := trimChars (s.data.map asciiLower)

/-- Does the first list start with the second one? -/
def startsWithChars : List Char → List Char → Bool
  | _, [] => true
  | [], _ :: _ => false
  | c :: cs, d :: ds => c == d && startsWithChars cs ds

/-- Substring occurrence test (JS `String.prototype.includes`). -/
def containsChars : List Char → List Char → Bool
  | [], pat => startsWithChars [] pat
  | c :: rest, pat => startsWithChars (c :: rest) pat || containsChars rest pat

/-- Word characters for the `\b` boundaries of the keyword regex. -/
def isWordChar (c : Char) : Bool :=
  ('a' ≤ c && c ≤ 'z') || ('A' ≤ c && c ≤ 'Z') || ('0' ≤ c && c ≤ '9') || c == '_'

def isLowerAlpha (c : Char) : Bool := 'a' ≤ c && c ≤ 'z'

/-- Maximal runs of word characters (accumulator holds the current run,
reversed). -/
def wordRunsAux : List Char → List Char → List (List Char)
  | [], acc => if acc.isEmpty then [] else [acc.reverse]
  | c :: rest, acc =>
    if isWordChar c then wordRunsAux rest (c :: acc)
    else if acc.isEmpty then wordRunsAux rest []
    else acc.reverse :: wordRunsAux rest []

/-- The source's `extractWords`: matches of `/\b[a-z]{3,}\b/g` over already
lower-cased text, i.e. maximal word-character runs that consist of at least
three lowercase letters only. -/
def extractWords (l : List Char) : List (List Char) :=
  (wordRunsAux l []).filter (fun w => w.length ≥ 3 && w.all isLowerAlpha)

/-- First-occurrence deduplication (JS `new Set(...)` turned back into an
array). -/
def dedupAux [BEq α] : List α → List α → List α
  | [], _ => []
  | x :: xs, seen =>
    if seen.contains x then dedupAux xs seen else x :: dedupAux xs (x :: seen)

def dedup [BEq α] (l : List α) : List α := dedupAux l []

/-- JS truthiness of an optional string (null and the empty string are
falsy). -/
def jsTruthy : Option String → Bool
  | none => false
  | some s => s != ""

/-- JS `a || b` for strings. -/
def jsOrStr (a b : String) : String := if a == "" then b else a

/-- Join a list of strings with single spaces (JS `Array.prototype.join(" ")`). -/
def joinSpace : List String → String
  | [] => ""
  | [s] => s
  | s :: rest => s ++ " " ++ joinSpace rest

/-- Last element with a default (JS `arr.at(-1)` at call sites where the
array is known to be non-empty). -/
def lastD (l : List α) (d : α) : α := (l.getLast?).getD d

/-- JS `arr.slice(-n)`. -/
def takeRight (n : Nat) (l : List α) : List α := l.drop (l.length - n)

/-- The source compares `timeDiff = (msLater - msEarlier) / 60000` (minutes)
against a threshold with strict `<`; with exact arithmetic this equals
comparing the millisecond difference against `minutes * 60000`. -/
def ltMinutes (diffMs : Int) (minutes : Int) : Bool := diffMs < minutes * 60000

/-! ## Data model -/

/-- A normalized message, as produced by `extractMessages`.  `created_at` is
the timestamp in milliseconds.  `isReaction`/`reactedToId` are the structural
reaction flags read by `checkStructuralSignals`. -/
structure Message where
  id : String
  created_at : Int
  content : String
  author : String
  conversation_id : String
  conversation_name : String
  thread_id : Option String := none
  isReaction : Bool := false
  reactedToId : Option String := none
deriving Repr, DecidableEq, Inhabited

/-- Chronological stable sort, the model of
`[...messages].sort((a, b) => new Date(a.created_at) - new Date(b.created_at))`
(JS array sort is stable). -/
def sortMessages (msgs : List Message) : List Message :=
  List.insertionSort (fun a b => a.created_at ≤ b.created_at) msgs

/-- A unit as built by `createUnit`, together with the optional annotations
(`mergedFrom`, `splitFrom`, `splitRange`, `originalIndex`) that the validator
spreads onto copies.  An absent `mergedFrom` is the empty list. -/
structure Unit' where
  id : String
  index : Nat
  messages : List Message
  authors : List String
  conversation_id : String
  conversation_name : String
  start_time : Int
  end_time : Int
  content : String
  mergedFrom : List Nat := []
  splitFrom : Option Nat := none
  splitRange : Option (Nat × Nat) := none
  originalIndex : Option Nat := none
deriving Repr, DecidableEq, Inhabited

/-- `generateUUID`, modelled as a counter-indexed fresh identifier. -/
def generateUUID (n : Nat) : String := toString (100000 + n) ++ "-4abc-8def"

/-- The source's `createUnit(messages, index)`; `ctr` supplies the fresh
identifier.  All call sites pass non-empty `messages`. -/
def createUnit (ctr : Nat) (messages : List Message) (index : Nat) : Unit' :=
  { id := generateUUID ctr
    index := index
    messages := messages
    authors := dedup (messages.map (·.author))
    conversation_id := (messages.headD default).conversation_id
    conversation_name := jsOrStr (messages.headD default).conversation_name "DM"
    start_time := (messages.headD default).created_at
    end_time := (lastD messages default).created_at
    content := joinSpace (messages.map (·.content)) }

/-! ## Atomic Unit Builder heuristics -/

/-- The token alternation of the first `shortPatterns` regex in
`isContinuationSignal`. -/
def continuationTokens : List String :=
  ["yeah", "yea", "ya", "yep", "yes", "no", "nope", "ok", "okay", "k", "kk",
   "sure", "agreed", "exactly", "right", "true", "lol", "haha", "hmm", "ah",
   "oh", "nice", "cool", "great", "thanks", "ty", "thx", "+1", "^", "this",
   "same", "def", "definitely", "totally", "yup", "nah", "word", "bet",
   "facts", "fr", "real", "tru", "omg", "wow", "ooh", "ahh"]

/-- `isContinuationSignal(msg)`: exact match against the token set, or any
string of 1 to 10 characters (the `/^.{1,10}$/` pattern; `.` does not match
line terminators). -/
def isContinuationSignal (msg : Message) : Bool :=
  let content := lowerTrim msg.content
  let exactMatch := continuationTokens.any (fun t => content == t.data)
  let veryShort := 1 ≤ content.length && content.length ≤ 10 &&
    content.all (fun c => c != '\n' && c != '\r')
  exactMatch || veryShort

/-- The five `replyPatterns` alternations of `isReplyLikeMessage` (each an
anchored, exact, case-insensitive match). -/
def replyPatternTokens : List String :=
  ["yeah", "yea", "ya", "yep", "yes", "exactly", "right", "agreed", "sure",
   "definitely", "totally", "same", "this", "that", "true",
   "no", "nope", "nah", "not really", "disagree",
   "ok", "okay", "k", "kk", "got it", "makes sense", "understood",
   "thanks", "thank you", "ty", "thx", "appreciate it",
   "cool", "nice", "great", "awesome", "love it"]

/-- Tokens of the unanchored start-of-string regex inside `isShortReply`. -/
def shortReplyStarts : List String :=
  ["yeah", "yes", "no", "ok", "yep", "exactly", "right", "same", "this",
   "that", "true", "sure", "agreed"]

/-- Tokens of the `startsWithReply` regex (its trailing `\s*[-,:;]?\s*` is
entirely optional, so the test is a plain starts-with). -/
def startsWithReplyTokens : List String :=
  ["yeah", "yea", "ya", "yep", "yes", "no", "nope", "ok", "okay", "right",
   "exactly", "sure", "agreed", "definitely", "totally", "yup", "nah"]

/-- `isReplyLikeMessage(msg, prevMsg)`.  Ratio tests are scaled to exact
integer arithmetic: `c < 0.3 * p` becomes `10 * c < 3 * p` and
`c < 0.5 * p` becomes `2 * c < p`. -/
def isReplyLikeMessage (msg prevMsg : Message) : Bool :=
  let content := lowerTrim msg.content
  let prevContent := lowerTrim prevMsg.content
  let isShortReply :=
    replyPatternTokens.any (fun t => content == t.data) ||
    (content.length ≤ 20 &&
      shortReplyStarts.any (fun t => startsWithChars content t.data))
  let startsWithReply :=
    startsWithReplyTokens.any (fun t => startsWithChars content t.data)
  let referencesPrev :=
    containsChars content "this".data || containsChars content "that".data ||
    containsChars content "same".data ||
    (prevContent.length > 0 && 10 * content.length < 3 * prevContent.length)
  let contentWords := dedup (extractWords content)
  let prevWords := dedup (extractWords prevContent)
  let sharedWords := contentWords.filter (fun w => prevWords.contains w)
  let isSemanticContinuation :=
    content.length ≤ 50 && sharedWords.length > 0 &&
    sharedWords.any (fun w => w.length ≥ 4)
  let isShortElaboration :=
    prevContent.length > 20 && content.length ≤ 30 &&
    2 * content.length < prevContent.length
  isShortReply || startsWithReply || referencesPrev ||
    isSemanticContinuation || isShortElaboration

/-! ## Atomic Unit Builder -/

/-- The rule cascade of `createAtomicUnits` that computes `extend` for a
message against the open unit (`current` non-empty, `prev` its last and
`firstInUnit` its first message). -/
def auExtend (msg prev firstInUnit : Message) (current : List Message) : Bool :=
  let timeDiff := msg.created_at - prev.created_at
  let timeDiffFromFirst := msg.created_at - firstInUnit.created_at
  let sameConv := msg.conversation_id == prev.conversation_id
  let sameAuthor := msg.author == prev.author
  let sameThread := jsTruthy msg.thread_id && msg.thread_id == prev.thread_id
  let hasMatchingThread := jsTruthy msg.thread_id &&
    current.any (fun m => jsTruthy m.thread_id && m.thread_id == msg.thread_id)
  if sameThread || hasMatchingThread then true
  else if sameAuthor && sameConv && ltMinutes timeDiff 2 then true
  else if sameConv && ltMinutes timeDiff 1 then true
  else if isContinuationSignal msg && sameConv && ltMinutes timeDiff 3 then true
  else if sameConv then
    let isReplyToLast := isReplyLikeMessage msg prev
    let isReplyToFirst := decide (current.length > 1) &&
      isReplyLikeMessage msg firstInUnit
    if isReplyToLast || isReplyToFirst then
      let relevantTimeDiff := if isReplyToLast then timeDiff else timeDiffFromFirst
      ltMinutes relevantTimeDiff 1440
    else false
  else false

/-- Scan for the last element (and its index) satisfying the predicate; this
models the backwards `for` loop over `units.slice(-5)` that stops at the
first (most recent) match. -/
def revFind (p : α → Bool) : List α → Option (Nat × α)
  | [] => none
  | x :: xs =>
    match revFind p xs with
    | some (i, a) => some (i + 1, a)
    | none => if p x then some (0, x) else none

/-- The reopen check of `createAtomicUnits`: look in the last 5 closed units
for one containing the thread of `msg`; return its global index and the
unit. -/
def findReopen (msg : Message) (units : List Unit') : Option (Nat × Unit') :=
  if jsTruthy msg.thread_id && decide (units.length > 0) then
    match revFind (fun u => u.messages.any
        (fun m => jsTruthy m.thread_id && m.thread_id == msg.thread_id))
        (takeRight 5 units) with
    | some (i, u) => some (units.length - (takeRight 5 units).length + i, u)
    | none => none
  else none

/-- Loop state of `createAtomicUnits`: closed units, the open unit, and the
fresh-identifier counter. -/
structure AUState where
  units : List Unit'
  current : List Message
  ctr : Nat
deriving Repr

/-- One iteration of the `createAtomicUnits` loop body. -/
def auStep (st : AUState) (msg : Message) : AUState :=
  match st.current with
  | [] => { st with current := [msg] }
  | firstInUnit :: _ =>
    let prev := lastD st.current msg
    if auExtend msg prev firstInUnit st.current then
      { st with current := st.current ++ [msg] }
    else if jsTruthy msg.thread_id && st.current.any
        (fun m => jsTruthy m.thread_id && m.thread_id == msg.thread_id) then
      { st with current := st.current ++ [msg] }
    else
      match findReopen msg st.units with
      | some (unitIndex, u) =>
        { st with
            units := st.units.set unitIndex
              (createUnit st.ctr (u.messages ++ [msg]) unitIndex)
            ctr := st.ctr + 1 }
      | none =>
        { units := st.units ++ [createUnit st.ctr st.current st.units.length]
          current := [msg]
          ctr := st.ctr + 1 }

def auRun : List Message → AUState → AUState
  | [], st => st
  | m :: ms, st => auRun ms (auStep st m)

/-- `createAtomicUnits(messages)`: sort chronologically, run the rule loop,
close the final open unit.  Returns the units and the final identifier
counter. -/
def createAtomicUnits (ctr : Nat) (messages : List Message) : List Unit' × Nat :=
  let sorted := sortMessages messages
  let st := auRun sorted ⟨[], [], ctr⟩
  match st.current with
  | [] => (st.units, st.ctr)
  | _ :: _ => (st.units ++ [createUnit st.ctr st.current st.units.length], st.ctr + 1)

/-- All messages of a list of units, in order. -/
def unitMsgs (us : List Unit') : List Message := us.flatMap (·.messages)

/-! ## Unit Validator (batched validation with overlap) -/

def BATCH_SIZE : Nat := 10
def BATCH_OVERLAP : Nat := 3

/-- One entry of the `analysis` array of a decoded validation reply.  Unit
numbers are arbitrary JSON integers; absent arrays are `none`. -/
structure AnalysisItem where
  unit : Int
  action : String
  split_after_message : Option (List Int) := none
  merge_with_units : Option (List Int) := none
deriving Repr, DecidableEq, Inhabited

/-- `getLocalIndex` of `applyBatchAdjustments`. -/
def getLocalIndex (unitNum : Int) (batchStart : Nat) : Int :=
  unitNum - (batchStart : Int) - 1

/-- Ascending sort of the (already filtered, hence non-negative) merge-group
indices — JS `sort((a, b) => a - b)`. -/
def sortNats (l : List Nat) : List Nat := List.insertionSort (· ≤ ·) l

def sortInts (l : List Int) : List Int := List.insertionSort (· ≤ ·) l

/-- The first phase of `applyBatchAdjustments`: build `mergeGroups` (an
insertion-ordered map from the group minimum to the group) and the `toMerge`
set. -/
def buildMergeGroups (analysis : List AnalysisItem) (batchStart : Nat)
    (unitsLen : Nat) : List (Nat × List Nat) × List Nat :=
  analysis.foldl
    (fun acc item =>
      let mg := acc.1
      let toMerge := acc.2
      if item.action == "merge" && (item.merge_with_units.getD []).length > 0 then
        let localIdx := getLocalIndex item.unit batchStart
        let group := sortNats
          (((localIdx :: (item.merge_with_units.getD []).map
              (fun u => getLocalIndex u batchStart)).filter
            (fun i => 0 ≤ i && i < (unitsLen : Int))).map Int.toNat)
        if group.length > 1 then
          let key := group.headD 0
          if mg.any (fun p => p.1 == key) then (mg, toMerge)
          else (mg ++ [(key, group)], toMerge ++ group)
        else (mg, toMerge)
      else (mg, toMerge))
    ([], [])

/-- JS `units[idx]?.messages || []`. -/
def msgsAt (units : List Unit') (idx : Nat) : List Message :=
  ((units.get? idx).map (·.messages)).getD []

/-- The accumulator of the main `applyBatchAdjustments` loop: adjusted units,
processed indices, and the fresh-identifier counter. -/
structure AdjAcc where
  adjusted : List Unit'
  processed : List Nat
  ctr : Nat

/-- The split slicing of `applyBatchAdjustments` (1-based split points,
already filtered and sorted; a final point at the message count closes the
last slice). -/
def splitSlices (ctr : Nat) (unit : Unit') (unitNum : Nat)
    (splitPoints : List Nat) : List Unit' × Nat :=
  let fin := (splitPoints ++ [unit.messages.length]).foldl
    (fun (acc : List Unit' × Nat × Nat) splitAt =>
      let start := acc.2.2
      if start < splitAt then
        (acc.1 ++ [{ createUnit acc.2.1
              ((unit.messages.drop start).take (splitAt - start)) 0 with
            splitFrom := some unitNum
            splitRange := some (start + 1, splitAt) }],
          acc.2.1 + 1, splitAt)
      else (acc.1, acc.2.1, splitAt))
    ([], ctr, 0)
  (fin.1, fin.2.1)

/-- One iteration (index `i`) of the main loop of `applyBatchAdjustments`. -/
def adjStep (units : List Unit') (analysis : List AnalysisItem)
    (batchStart : Nat) (mergeGroups : List (Nat × List Nat))
    (toMerge : List Nat) (acc : AdjAcc) (i : Nat) : AdjAcc :=
  if acc.processed.contains i then acc
  else
    let unitNum := batchStart + i + 1
    let item := (analysis.find? (fun a => a.unit == (unitNum : Int))).getD
      { unit := (unitNum : Int), action := "keep" }
    let unit := units.getD i default
    match (mergeGroups.find? (fun p => p.1 == i)).map (·.2) with
    | some group =>
      let mergedMessages := sortMessages (group.flatMap (msgsAt units))
      if mergedMessages.length > 0 then
        { adjusted := acc.adjusted ++
            [{ createUnit acc.ctr mergedMessages 0 with
                mergedFrom := group.map (fun idx => batchStart + idx + 1) }]
          processed := acc.processed ++ group
          ctr := acc.ctr + 1 }
      else { acc with processed := acc.processed ++ group }
    | none =>
      if item.action == "split" && (item.split_after_message.getD []).length > 0 then
        let splitPoints := sortInts
          ((item.split_after_message.getD []).filter
            (fun s => 0 < s && s < (unit.messages.length : Int)))
        let sl := splitSlices acc.ctr unit unitNum (splitPoints.map Int.toNat)
        { adjusted := acc.adjusted ++ sl.1
          processed := acc.processed ++ [i]
          ctr := sl.2 }
      else if !(toMerge.contains i) then
        { acc with adjusted := acc.adjusted ++ [unit]
                   processed := acc.processed ++ [i] }
      else acc

/-- `applyBatchAdjustments(units, analysis, batchStart)`.  The caller always
passes `result.analysis || []`, so the non-array guard of the source cannot
fire here (a non-array `analysis` returns the units unchanged, which is the
same output the empty analysis produces). -/
def applyBatchAdjustments (ctr : Nat) (units : List Unit')
    (analysis : List AnalysisItem) (batchStart : Nat) : List Unit' × Nat :=
  let bg := buildMergeGroups analysis batchStart units.length
  let fin := (List.range units.length).foldl
    (adjStep units analysis batchStart bg.1 bg.2) ⟨[], [], ctr⟩
  (fin.adjusted, fin.ctr)

/-- Outcome of one validation-batch oracle call.  `failure` models a thrown
`callAnthropic` error (network failure or timeout, raised outside the
per-batch `try`); `unparseable` models a `parseJSONSafe` throw (caught by the
per-batch `try`); `parsed` carries the decoded body's `analysis` field
(`none` when absent or not an array). -/
inductive BatchReply where
  | failure (msg : String)
  | unparseable (msg : String)
  | parsed (analysis : Option (List AnalysisItem))
deriving Repr, DecidableEq, Inhabited

/-- Insertion-ordered map update, JS `Map.prototype.set`. -/
def setIdx (br : List (Nat × Unit')) (k : Nat) (v : Unit') : List (Nat × Unit') :=
  if br.any (fun p => p.1 == k) then
    br.map (fun p => if p.1 == k then (k, v) else p)
  else br ++ [(k, v)]

/-- JS `Map.prototype.get`. -/
def lookupIdx (br : List (Nat × Unit')) (k : Nat) : Option Unit' :=
  (br.find? (fun p => p.1 == k)).map (·.2)

/-- Store an adjusted batch into the `batchResults` map: merged units are
stored under every constituent original index; other units are stored under
`batchStart` plus their position in the adjusted batch (bounded by the total
unit count). -/
def storeAdjusted (atomLen : Nat) (batchStart : Nat) (adjusted : List Unit')
    (br : List (Nat × Unit')) : List (Nat × Unit') :=
  ((adjusted.enum.map (fun p => (p.2, p.1))).foldl
    (fun br p =>
      let unit := p.1
      let i := p.2
      if unit.mergedFrom.length > 0 then
        unit.mergedFrom.foldl
          (fun br origUnitNum =>
            let origIdx := origUnitNum - 1
            setIdx br origIdx { unit with originalIndex := some origIdx })
          br
      else
        let origIdx := batchStart + i
        if origIdx < atomLen then
          setIdx br origIdx { unit with originalIndex := some origIdx }
        else br)
    br)

/-- Keep a failed batch's units unchanged (the parse-error path): store each
unit under its original index unless some earlier batch already stored that
index. -/
def storeUnchanged (batchStart : Nat) (batch : List Unit')
    (br : List (Nat × Unit')) : List (Nat × Unit') :=
  (batch.enum.map (fun p => (p.2, p.1))).foldl
    (fun br p =>
      let origIdx := batchStart + p.2
      if (lookupIdx br origIdx).isSome then br
      else setIdx br origIdx { p.1 with originalIndex := some origIdx })
    br

/-- The overlapping batches of `handleValidateUnits`:
`for (let i = 0; i < n; i += BATCH_SIZE - BATCH_OVERLAP)` with
`batch = units.slice(i, i + BATCH_SIZE)` (non-empty batches only). -/
def makeBatches (atomicUnits : List Unit') : List (List Unit' × Nat) :=
  (((List.range atomicUnits.length).filter
      (fun i => i % (BATCH_SIZE - BATCH_OVERLAP) == 0)).map
    (fun i => ((atomicUnits.drop i).take BATCH_SIZE, i))).filter
    (fun b => b.1.length > 0)

/-- The batch loop of `handleValidateUnits`.  A `failure` reply propagates as
a thrown error (it is raised outside the per-batch `try`, so it reaches the
outer `catch` and aborts the whole run); an `unparseable` reply keeps the
batch unchanged and continues. -/
def runBatches (atomLen : Nat) (oracle : Nat → BatchReply) :
    List (List Unit' × Nat) → Nat → List (Nat × Unit') → Nat →
    Except String (List (Nat × Unit') × Nat)
  | [], _, br, ctr => Except.ok (br, ctr)
  | (batch, batchStart) :: rest, batchIdx, br, ctr =>
    match oracle batchIdx with
    | BatchReply.failure e => Except.error e
    | BatchReply.unparseable _ =>
      runBatches atomLen oracle rest (batchIdx + 1)
        (storeUnchanged batchStart batch br) ctr
    | BatchReply.parsed analysisOpt =>
      let adj := applyBatchAdjustments ctr batch (analysisOpt.getD []) batchStart
      runBatches atomLen oracle rest (batchIdx + 1)
        (storeAdjusted atomLen batchStart adj.1 br) adj.2

/-- The dedup/reindex phase of `handleValidateUnits`: walk the original
indices in order, skip indices with no stored unit, and keep each stored
unit once (keyed by `adjusted.id || adjusted.originalIndex`; generated ids
are never empty, so the key is the id). -/
def dedupResults (atomLen : Nat) (br : List (Nat × Unit')) : List Unit' :=
  ((List.range atomLen).foldl
    (fun (acc : List String × List Unit') i =>
      match lookupIdx br i with
      | none => acc
      | some u =>
        let key := jsOrStr u.id (toString (u.originalIndex.getD 0))
        if acc.1.contains key then acc
        else (acc.1 ++ [key], acc.2 ++ [{ u with index := acc.2.length }]))
    ([], [])).2

/-- One entry of the `pairs` array of a decoded post-merge reply. -/
structure PairItem where
  unit1 : Int
  unit2 : Int
  should_merge : Bool
deriving Repr, DecidableEq, Inhabited

/-- Outcome of one post-merge oracle call (one chunk of up to 20 adjacent
pairs): a thrown call or parse error (caught by the chunk's `try`), or the
decoded body's `pairs` field (`none` when absent or not an array). -/
def PairReply : Type := Except String (Option (List PairItem))

/-- Collect `mergeCandidates` from the decoded pair replies.  Chunk `k`
covers pairs `(j, j+1)` for `20*k ≤ j < min (20*k + 20) (n-1)`; a failed
chunk contributes nothing.  The truthiness guards of the source
(`pair.unit1 && pair.unit2`) make a pair with a zero unit number inert. -/
def collectPairCandidates (unitsLen : Nat) (pairOracle : Nat → PairReply) :
    List (Nat × Nat) :=
  ((List.range unitsLen).filter (fun i => i % 20 == 0 && i < unitsLen - 1)).foldl
    (fun cands i =>
      match pairOracle (i / 20) with
      | Except.error _ => cands
      | Except.ok none => cands
      | Except.ok (some pairs) =>
        pairs.foldl
          (fun cands pair =>
            if pair.should_merge && pair.unit1 != 0 && pair.unit2 != 0 then
              let idx1 := pair.unit1 - 1
              let idx2 := pair.unit2 - 1
              if 0 ≤ idx1 && idx2 < (unitsLen : Int) && idx2 == idx1 + 1 then
                cands ++ [(idx1.toNat, idx2.toNat)]
              else cands
            else cands)
          cands)
    []

/-- The chain-following `while` loop of the post-merge pass.  The loop
terminates because every step adds a fresh index to `merged`; the fuel is
an upper bound on the chain length (`unitsLen + 1` suffices). -/
def followChain (cands : List (Nat × Nat)) :
    Nat → Nat → List Nat → List Nat → List Nat × List Nat
  | 0, _, group, merged => (group, merged)
  | fuel + 1, currentIdx, group, merged =>
    match cands.find? (fun m => m.1 == currentIdx && !(merged.contains m.2)) with
    | some m => followChain cands fuel m.2 (group ++ [m.2]) (merged ++ [m.2])
    | none => (group, merged)

/-- `postMergeAdjacentUnits(units)`: collect adjacent-pair merge candidates
from the pair oracle, then collapse merge chains. -/
def postMergeAdjacentUnits (ctr : Nat) (units : List Unit')
    (pairOracle : Nat → PairReply) : List Unit' × Nat :=
  if units.length ≤ 1 then (units, ctr)
  else
    let mergeCandidates := collectPairCandidates units.length pairOracle
    if mergeCandidates.length == 0 then (units, ctr)
    else
      let fin := (List.range units.length).foldl
        (fun (acc : List Nat × List Unit' × Nat) i =>
          let merged := acc.1
          let result := acc.2.1
          let ctr := acc.2.2
          if merged.contains i then acc
          else
            let ch := followChain mergeCandidates (units.length + 1) i [i] merged
            let mergeGroup := ch.1
            let merged := ch.2
            if mergeGroup.length > 1 then
              let mergedMessages :=
                sortMessages (mergeGroup.flatMap (msgsAt units))
              if mergedMessages.length > 0 then
                (merged ++ mergeGroup,
                  result ++ [{ createUnit ctr mergedMessages result.length with
                    mergedFrom := mergeGroup.map (fun idx => idx + 1) }],
                  ctr + 1)
              else (merged ++ mergeGroup, result, ctr)
            else
              (merged,
                result ++ [{ units.getD i default with index := result.length }],
                ctr))
        ([], [], ctr)
      (fin.2.1, fin.2.2)

/-- The validation run of `handleValidateUnits`: overlapping batches, the
per-index reconciliation map, dedup/reindex, the post-merge pass, and the
final reindex.  A thrown oracle call in the batch loop reaches the outer
`catch` and aborts the run with the error (`Except.error`); all other
failures degrade locally. -/
def handleValidateUnits (atomicUnits : List Unit') (oracle : Nat → BatchReply)
    (pairOracle : Nat → PairReply) (ctr : Nat) : Except String (List Unit') := do
  let res ← runBatches atomicUnits.length oracle (makeBatches atomicUnits) 0 [] ctr
  let allAdjusted := dedupResults atomicUnits.length res.1
  let post := postMergeAdjacentUnits res.2 allAdjusted pairOracle
  return (post.1.enum.map (fun p => { p.2 with index := p.1 }))

/-! ## Segment State Machine (pipeline B) -/

/-- A speech-act classification. -/
structure SpeechAct where
  top_level : String
  specific : String
deriving Repr, DecidableEq, Inhabited

/-- A per-message annotation.  Roles and methods are the literal strings of
the source; `annotatedAt` is a wall-clock field modelled as 0. -/
structure Annotation where
  messageId : String
  conversationId : String
  attachesTo : Option String
  segmentId : String
  role : String
  confidence : ℚ
  method : String
  reasoning : String
  speechAct : Option SpeechAct
  annotatedAt : Int
deriving Repr, DecidableEq, Inhabited

/-- A segment; `createdAt`/`lastActivityAt` are wall-clock fields modelled
as 0. -/
structure Segment where
  id : String
  conversationId : String
  messageIds : List String
  status : String
  summary : String
  participants : List String
  createdAt : Int
  lastActivityAt : Int
  messages : List Message
  annotations : List Annotation
deriving Repr, DecidableEq, Inhabited

structure ConversationState where
  conversationId : String
  activeSegments : List Segment
deriving Repr, DecidableEq, Inhabited

/-- One attempted match of `/<!member_group:[^|]+\|([^>]+)>/` at the head of
the list: the captured name and the remainder after the closing bracket. -/
def matchMention (l : List Char) : Option (List Char × List Char) :=
  if startsWithChars l "<!member_group:".data then
    let rest1 := l.drop 15
    let before := rest1.takeWhile (fun c => c != '|')
    match rest1.dropWhile (fun c => c != '|') with
    | '|' :: rest2 =>
      if before.isEmpty then none
      else
        let name := rest2.takeWhile (fun c => c != '>')
        match rest2.dropWhile (fun c => c != '>') with
        | '>' :: rest3 => if name.isEmpty then none else some (name, rest3)
        | _ => none
    | _ => none
  else none

/-- Global replacement scan for `formatMessageContent`.  Every step consumes
at least one character, so fuel equal to the input length suffices. -/
def fmtScanAux : Nat → List Char → List Char
  | 0, l => l
  | _, [] => []
  | fuel + 1, c :: rest =>
    match matchMention (c :: rest) with
    | some (name, rest') => '@' :: (name ++ fmtScanAux fuel rest')
    | none => c :: fmtScanAux fuel rest

/-- `formatMessageContent`: replace every `<!member_group:uuid|name>` mention
with `@name`. -/
def formatMessageContent (content : String) : String :=
  String.mk (fmtScanAux content.data.length content.data)

/-- JS `s.slice(0, n)`. -/
def takeChars (n : Nat) (s : String) : String := String.mk (s.data.take n)

/-- `generateSegmentSummary`: format, truncate to 50 characters, append an
ellipsis when truncated. -/
def generateSegmentSummary (message : Message) : String :=
  let formatted := formatMessageContent message.content
  let text := takeChars 50 formatted
  if text.data.length < formatted.data.length then text ++ "..." else text

/-- `createSegment(message, state)`: push a fresh OPEN segment seeded with
the message.  Returns the segment, the grown state, and the counter. -/
def createSegment (ctr : Nat) (message : Message) (state : ConversationState) :
    Segment × ConversationState × Nat :=
  let segment : Segment :=
    { id := generateUUID ctr
      conversationId := message.conversation_id
      messageIds := [message.id]
      status := "OPEN"
      summary := generateSegmentSummary message
      participants := [message.author]
      createdAt := 0
      lastActivityAt := 0
      messages := [message]
      annotations := [] }
  (segment, { state with activeSegments := state.activeSegments ++ [segment] },
    ctr + 1)

/-- `findSegmentContaining(messageId, state)`. -/
def findSegmentContaining (messageId : String) (state : ConversationState) :
    Option Segment :=
  state.activeSegments.find? (fun s => s.messageIds.contains messageId)

/-- `getSegmentShortId`: the first six characters of the id. -/
def getSegmentShortId (segment : Segment) : String :=
  jsOrStr (takeChars 6 segment.id) "??????"

/-- `findSegmentByShortId(shortId, state)`. -/
def findSegmentByShortId (shortId : String) (state : ConversationState) :
    Option Segment :=
  state.activeSegments.find? (fun s => startsWithChars s.id.data shortId.data)

/-- In-place mutation of the first element satisfying `p` (JS `find` followed
by mutation of the returned reference). -/
def updateFirst (p : α → Bool) (f : α → α) : List α → List α
  | [] => []
  | x :: xs => if p x then f x :: xs else x :: updateFirst p f xs

/-- `updateSegmentState(message, annotation, state)`: add the message to the
annotation's segment (idempotently), record the annotation and participant,
and resolve the segment on a RESOLVES role.  A missing segment is a no-op. -/
def updateSegmentState (message : Message) (ann0 : Annotation)
    (state : ConversationState) : ConversationState :=
  let touch := fun (segment : Segment) =>
    let segment :=
      if segment.messageIds.contains message.id then segment
      else { segment with
        messageIds := segment.messageIds ++ [message.id]
        messages := segment.messages ++ [message] }
    let segment := { segment with
      lastActivityAt := 0
      annotations := segment.annotations ++ [ann0] }
    let segment :=
      if segment.participants.contains message.author then segment
      else { segment with
        participants := segment.participants ++ [message.author] }
    if ann0.role == "RESOLVES" then { segment with status := "RESOLVED" }
    else segment
  if (state.activeSegments.find? (fun s => s.id == ann0.segmentId)).isSome then
    { state with activeSegments :=
        (updateFirst (fun s => s.id == ann0.segmentId) touch
          state.activeSegments) }
  else state

/-- `checkStructuralSignals(message, state)`: the emoji-reaction fast path.
Thread replies are deliberately not handled structurally.  Returns the
annotation when the fast path applies, together with the (possibly grown)
state and the counter. -/
def checkStructuralSignals (ctr : Nat) (message : Message)
    (state : ConversationState) : Option Annotation × ConversationState × Nat :=
  if message.isReaction && jsTruthy message.reactedToId then
    let mkAnn := fun (segmentId : String) =>
      { messageId := message.id
        conversationId := message.conversation_id
        attachesTo := message.reactedToId
        segmentId := segmentId
        role := "REACTS"
        confidence := (1 : ℚ)
        method := "STRUCTURAL"
        reasoning := "Emoji reaction"
        speechAct := some { top_level := "Social", specific := "Social-Appreciation" }
        annotatedAt := 0 : Annotation }
    match findSegmentContaining (message.reactedToId.getD "") state with
    | some segment => (some (mkAnn segment.id), state, ctr)
    | none =>
      let cs := createSegment ctr message state
      (some (mkAnn cs.1.id), cs.2.1, cs.2.2)
  else (none, state, ctr)

/-- The `SPEECH_ACT_SCHEMA` taxonomy (insertion order preserved). -/
def SPEECH_ACT_SCHEMA : List (String × List String) :=
  [("Query",
    ["Query-Status", "Query-Status-Personal", "Query-Status-Environment",
     "Query-Status-TaskOrIssue", "Query-Technical", "Query-Admin",
     "Query-Through-Uncertainty", "Query-For-Clarification"]),
   ("Assign", ["Assign-Task", "Assign-Admin"]),
   ("Request", ["Request", "Request-Help", "Request-Attention"]),
   ("Inform",
    ["Inform-Status-Personal", "Inform-Status-Environment",
     "Inform-Status-TaskOrIssue", "Inform-Status-TaskOrIssue-Progress",
     "Inform-Status-TaskOrIssue-Impediment", "Inform-NewIssue",
     "Inform-NewIssue-Anticipated", "Inform-Technical", "Inform-Admin",
     "Inform-InResponse", "Inform-ExplainRationale", "Inform-ClaimTask",
     "Inform-ClaimProblemResponsibility"]),
   ("Propose",
    ["Propose-Task", "Propose-PossibleSolution", "Propose-OfferAssistance",
     "Propose-Admin"]),
   ("Acknowledge",
    ["Acknowledge-Receipt", "Acknowledge-Accept", "Acknowledge-Affirm",
     "Acknowledge-Validated"]),
   ("Reject",
    ["Reject", "Reject-Counter-Assign", "Reject-Counter-Inform",
     "Reject-Counter-Claim", "Reject-Counter-Propose"]),
   ("Code", ["Code-Message-Table-Issue", "Code-Message-Table-Solution"]),
   ("Social",
    ["Social-Blame-Person", "Social-Backchannel", "Social-Comradery",
     "Social-Appreciation", "Social-Frustration"])]

/-- `s.split("-")[0]`. -/
def dashHead (s : String) : String :=
  String.mk (s.data.takeWhile (fun c => c != '-'))

/-- `getSpeechActCategory(specificAct)`. -/
def getSpeechActCategory (specificAct : String) : Option String :=
  if specificAct == "" then none
  else
    match SPEECH_ACT_SCHEMA.find? (fun p => p.2.contains specificAct) with
    | some p => some p.1
    | none =>
      let pre := dashHead specificAct
      if (SPEECH_ACT_SCHEMA.find? (fun p => p.1 == pre)).isSome then some pre
      else none

/-- The duck-typed `speech_act` field of a decoded reply: a plain string
label or a structured object. -/
inductive SpeechActJson where
  | str (s : String)
  | obj (a : SpeechAct)
deriving Repr, DecidableEq, Inhabited

/-- A decoded classification reply (the JSON object `parseJSONSafe` returns);
absent fields are `none`. -/
structure ClassificationJson where
  conversation : Option String := none
  segment : Option String := none
  continues_previous : Option Bool := none
  attachesTo : Option String := none
  role : Option String := none
  confidence : Option ℚ := none
  reasoning : Option String := none
  speech_act : Option SpeechActJson := none
deriving Repr, DecidableEq, Inhabited

/-- The normalized classification produced by
`parseClassificationResponse`. -/
structure ParsedClassification where
  conversation : String
  continues_previous : Bool
  attachesTo : Option String
  role : String
  confidence : ℚ
  reasoning : String
  speechAct : Option SpeechAct
deriving Repr, DecidableEq, Inhabited

/-- `parseClassificationResponse` over an already-decoded body.  The
`parsed.conversation || parsed.segment` fallback uses JS truthiness (an empty
string falls through); a missing result throws.  Missing `role`,
`confidence`, `attachesTo`, `reasoning` default to "DEVELOPS", 0.5, null and
"". -/
def parseClassificationResponse (parsed : ClassificationJson) :
    Except String ParsedClassification :=
  let conversation :=
    if jsTruthy parsed.conversation then parsed.conversation else parsed.segment
  if !(jsTruthy conversation) then
    Except.error "Missing required fields in LLM response"
  else
    let speechAct :=
      match parsed.speech_act with
      | none => none
      | some (SpeechActJson.str s) =>
        if s == "" then none
        else
          some { top_level := (getSpeechActCategory s).getD (dashHead s)
                 specific := s : SpeechAct }
      | some (SpeechActJson.obj a) => some a
    Except.ok
      { conversation := conversation.getD ""
        continues_previous := parsed.continues_previous.getD false
        attachesTo := parsed.attachesTo
        role := parsed.role.getD "DEVELOPS"
        confidence := parsed.confidence.getD (1/2)
        reasoning := parsed.reasoning.getD ""
        speechAct := speechAct }

/-- Strategy configuration with the defaults of `classifyWithLLM`. -/
structure StrategyConfig where
  strategy : String := "segment-centric"
  stalenessThreshold : Int := 30
  maxSegmentsToShow : Nat := 5
  preferPreviousMessage : Bool := true
deriving Repr, DecidableEq, Inhabited

/-- The classification oracle: `callAnthropic` composed with
`parseJSONSafe`.  An error is a thrown network/timeout/parse exception; the
reply may depend on the message under classification. -/
def ClassifyOracle : Type := Message → Except String ClassificationJson

/-- JS `expr || null` for an optional string. -/
def jsOrNull (o : Option String) : Option String :=
  if jsTruthy o then o else none

/-- `classifyWithLLM(message, state, recentMessages, allPreviousMessages,
config)`.  Computes the reference message/segment, consults the oracle, and
resolves the reply according to the strategy; the surrounding `try`/`catch`
turns any thrown error into the zero-confidence INITIATES fallback with a
fresh segment.  Returns the annotation, the updated state and the counter. -/
def classifyWithLLM (ctr : Nat) (message : Message) (state : ConversationState)
    (recentMessages allPreviousMessages : List Message)
    (config : StrategyConfig) (oracle : ClassifyOracle) :
    Annotation × ConversationState × Nat :=
  let threadRef : Option (Message × Option Segment) :=
    match message.thread_id with
    | some tid =>
      if tid == "" then none
      else
        match allPreviousMessages.find? (fun m => m.id == tid) with
        | some threadRoot =>
          some (threadRoot,
            state.activeSegments.find? (fun s => s.messageIds.contains threadRoot.id))
        | none => none
    | none => none
  let referenceMessage0 := threadRef.map (·.1)
  let referenceSegment0 : Option Segment :=
    match threadRef with
    | some (_, s) => s
    | none => none
  let referenceMessage :=
    if referenceSegment0.isNone then recentMessages.getLast? else referenceMessage0
  let referenceSegment :=
    if referenceSegment0.isNone then
      match recentMessages.getLast? with
      | some rm => state.activeSegments.find? (fun s => s.messageIds.contains rm.id)
      | none => none
    else referenceSegment0
  let fallback := fun (e : String) =>
    let cs := createSegment ctr message state
    ({ messageId := message.id
       conversationId := message.conversation_id
       attachesTo := none
       segmentId := cs.1.id
       role := "INITIATES"
       confidence := (0 : ℚ)
       method := "LLM"
       reasoning := "Fallback due to classification error: " ++ e
       speechAct := none
       annotatedAt := 0 : Annotation }, cs.2.1, cs.2.2)
  match oracle message with
  | Except.error e => fallback e
  | Except.ok body =>
    match parseClassificationResponse body with
    | Except.error e => fallback e
    | Except.ok result =>
      if config.strategy == "previous-centric" then
        -- the parsed result has no `segment` field, so the source's
        -- `result.segment && result.segment !== "NEW"` disjunct is always
        -- undefined, i.e. falsy
        let continuesPrev := result.continues_previous
        match referenceSegment with
        | some rs =>
          if continuesPrev then
            ({ messageId := message.id
               conversationId := message.conversation_id
               attachesTo := jsOrNull (referenceMessage.map (·.id))
               segmentId := rs.id
               role := result.role
               confidence := result.confidence
               method := "LLM"
               reasoning := result.reasoning
               speechAct := result.speechAct
               annotatedAt := 0 : Annotation }, state, ctr)
          else
            let cs := createSegment ctr message state
            ({ messageId := message.id
               conversationId := message.conversation_id
               attachesTo := none
               segmentId := cs.1.id
               role := jsOrStr result.role "INITIATES"
               confidence := result.confidence
               method := "LLM"
               reasoning := result.reasoning
               speechAct := result.speechAct
               annotatedAt := 0 : Annotation }, cs.2.1, cs.2.2)
        | none =>
          let cs := createSegment ctr message state
          ({ messageId := message.id
             conversationId := message.conversation_id
             attachesTo := none
             segmentId := cs.1.id
             role := jsOrStr result.role "INITIATES"
             confidence := result.confidence
             method := "LLM"
             reasoning := result.reasoning
             speechAct := result.speechAct
             annotatedAt := 0 : Annotation }, cs.2.1, cs.2.2)
      else if result.conversation == "NEW" then
        let cs := createSegment ctr message state
        ({ messageId := message.id
           conversationId := message.conversation_id
           attachesTo := none
           segmentId := cs.1.id
           role := result.role
           confidence := result.confidence
           method := "LLM"
           reasoning := result.reasoning
           speechAct := result.speechAct
           annotatedAt := 0 : Annotation }, cs.2.1, cs.2.2)
      else
        match findSegmentByShortId result.conversation state with
        | some segment =>
          ({ messageId := message.id
             conversationId := message.conversation_id
             attachesTo := result.attachesTo
             segmentId := segment.id
             role := result.role
             confidence := result.confidence
             method := "LLM"
             reasoning := result.reasoning
             speechAct := result.speechAct
             annotatedAt := 0 : Annotation }, state, ctr)
        | none =>
          let newSeg := fun (_ : Unit) =>
            let cs := createSegment ctr message state
            ({ messageId := message.id
               conversationId := message.conversation_id
               attachesTo := none
               segmentId := cs.1.id
               role := result.role
               confidence := result.confidence * (1/2)
               method := "LLM"
               reasoning := result.reasoning ++
                 " (new segment: invalid ID " ++ result.conversation ++ ")"
               speechAct := result.speechAct
               annotatedAt := 0 : Annotation }, cs.2.1, cs.2.2)
          match state.activeSegments.getLast? with
          | some fallbackSegment =>
            if result.role != "INITIATES" then
              ({ messageId := message.id
                 conversationId := message.conversation_id
                 attachesTo := result.attachesTo
                 segmentId := fallbackSegment.id
                 role := result.role
                 confidence := result.confidence * (7/10)
                 method := "LLM"
                 reasoning := result.reasoning ++
                   " (attached to most recent segment due to invalid ID " ++
                   result.conversation ++ ")"
                 speechAct := result.speechAct
                 annotatedAt := 0 : Annotation }, state, ctr)
            else newSeg ()
          | none => newSeg ()

/-- Running state of `segmentMessages`: per-conversation states in insertion
order, annotations, the identifier counter, and the oracle-call counter. -/
structure SegRunState where
  states : List (String × ConversationState)
  anns : List Annotation
  ctr : Nat
  calls : Nat
deriving Repr

/-- `getOrCreateState(conversationId)`. -/
def getOrCreateState (states : List (String × ConversationState))
    (conversationId : String) :
    ConversationState × List (String × ConversationState) :=
  match (states.find? (fun p => p.1 == conversationId)).map (·.2) with
  | some st => (st, states)
  | none =>
    let st : ConversationState :=
      { conversationId := conversationId, activeSegments := [] }
    (st, states ++ [(conversationId, st)])

/-- Store a conversation's state back into the map. -/
def writeBack (states : List (String × ConversationState))
    (conversationId : String) (st : ConversationState) :
    List (String × ConversationState) :=
  states.map (fun p => if p.1 == conversationId then (conversationId, st) else p)

/-- One iteration of the `segmentMessages` loop: structural fast path, then
oracle classification, then the segment-state update.  `done` holds the
already-processed messages in order. -/
def segStep (config : StrategyConfig) (oracle : ClassifyOracle)
    (done : List Message) (message : Message) (σ : SegRunState) : SegRunState :=
  let gs := getOrCreateState σ.states message.conversation_id
  let state := gs.1
  let states := gs.2
  let allPreviousMessages :=
    done.filter (fun m => m.conversation_id == message.conversation_id)
  let recentMessages := takeRight 50 allPreviousMessages
  match checkStructuralSignals σ.ctr message state with
  | (some ann0, state1, ctr1) =>
    let state2 := updateSegmentState message ann0 state1
    { states := writeBack states message.conversation_id state2
      anns := σ.anns ++ [ann0]
      ctr := ctr1
      calls := σ.calls }
  | (none, state1, ctr1) =>
    let cl := classifyWithLLM ctr1 message state1 recentMessages
      allPreviousMessages config oracle
    let state2 := updateSegmentState message cl.1 cl.2.1
    { states := writeBack states message.conversation_id state2
      anns := σ.anns ++ [cl.1]
      ctr := cl.2.2
      calls := σ.calls + 1 }

def segGo (config : StrategyConfig) (oracle : ClassifyOracle) :
    List Message → List Message → SegRunState → SegRunState
  | _, [], σ => σ
  | done, m :: ms, σ =>
    segGo config oracle (done ++ [m]) ms (segStep config oracle done m σ)

/-- The result of a segmentation run; `oracleCalls` counts the
classification calls made. -/
structure SegResult where
  segments : List Segment
  annotations : List Annotation
  oracleCalls : Nat
deriving Repr

/-- `segmentMessages(messages, ...)`: sort chronologically and process the
messages one at a time against per-conversation states. -/
def segmentMessages (messages : List Message) (config : StrategyConfig)
    (oracle : ClassifyOracle) : SegResult :=
  let sorted := sortMessages messages
  let σ := segGo config oracle [] sorted ⟨[], [], 0, 0⟩
  { segments := σ.states.flatMap (fun p => p.2.activeSegments)
    annotations := σ.anns
    oracleCalls := σ.calls }

/-! ## Concrete scenario inputs -/

/-- A one-message unit family used by the validator scenarios. -/
def mkScenarioMsg (n : Nat) : Message :=
  { id := "m" ++ toString n
    created_at := (n : Int) * 10000000
    content := "topic " ++ toString n
    author := "a" ++ toString n
    conversation_id := "c1"
    conversation_name := "general" }

def mkScenarioUnit (n : Nat) : Unit' := createUnit n [mkScenarioMsg n] n

/-- A pair oracle that reports no adjacent merges. -/
def pairOracleNone : Nat → PairReply := fun _ => Except.ok (some [])

/-- Three units for the C1 scenario. -/
def unitsC1 : List Unit' := [mkScenarioUnit 0, mkScenarioUnit 1, mkScenarioUnit 2]

/-- The C1 batch oracle: a single well-formed reply directing unit 1 to merge
with unit 2 and unit 2 to merge with unit 3. -/
def oracleC1 : Nat → BatchReply := fun _ =>
  BatchReply.parsed (some
    [{ unit := 1, action := "merge", merge_with_units := some [2] },
     { unit := 2, action := "merge", merge_with_units := some [3] }])

/-- Twelve units, so that the validator forms two overlapping batches
(units 1-10 and units 8-12). -/
def unitsTwelve : List Unit' := (List.range 12).map mkScenarioUnit

/-- The C4 batch oracle: the first batch parses to keep-everything, the
second oracle call throws. -/
def oracleC4 : Nat → BatchReply := fun i =>
  if i == 0 then BatchReply.parsed (some []) else BatchReply.failure "network error"

/-- A batch oracle whose first reply is unparseable and whose second reply
parses to keep-everything. -/
def oracleC4parse : Nat → BatchReply := fun i =>
  if i == 0 then BatchReply.unparseable "bad json" else BatchReply.parsed (some [])

/-- The C5 batch oracle: the earlier batch explicitly keeps all ten of its
units; the later batch (starting at unit 8) merges units 8 and 9, which the
earlier batch had kept. -/
def oracleC5 : Nat → BatchReply := fun i =>
  if i == 0 then
    BatchReply.parsed (some ((List.range 10).map
      (fun k => { unit := ((k + 1 : Nat) : Int), action := "keep" })))
  else
    BatchReply.parsed (some
      [{ unit := 8, action := "merge", merge_with_units := some [9] }])

/-- The C6 scenario: message A, the thread root, with a null threadId. -/
def msgC6A : Message :=
  { id := "A", created_at := 0, content := "bug in login", author := "alice",
    conversation_id := "c1", conversation_name := "general" }

/-- The C6 scenario: message B two hours later with threadId = A.id and
content that triggers none of the content heuristics. -/
def msgC6B : Message :=
  { id := "B", created_at := 7200000, content := "unrelated zebra words",
    author := "bob", conversation_id := "c1", conversation_name := "general",
    thread_id := some "A" }

/-- Two messages two hours apart carrying the same non-null threadId. -/
def msgC6T1 : Message := { msgC6A with thread_id := some "T" }

def msgC6T2 : Message := { msgC6B with thread_id := some "T" }

/-- C8 witnesses: the first message of the open unit. -/
def msgC8A : Message := msgC6A

/-- Same author, exactly 2.0 minutes later, no other rule applicable. -/
def msgC8B1 : Message :=
  { id := "B1", created_at := 120000, content := "unrelated zebra words",
    author := "alice", conversation_id := "c1", conversation_name := "general" }

/-- Different author, exactly 1.0 minute later. -/
def msgC8B2 : Message := { msgC8B1 with id := "B2", created_at := 60000, author := "bob" }

/-- A short first message (so that a tiny follow-up is not reply-like). -/
def msgC8A3 : Message := { msgC6A with id := "A3", content := "bug login" }

/-- A continuation signal exactly 3.0 minutes later. -/
def msgC8B3 : Message :=
  { id := "B3", created_at := 180000, content := "zzz", author := "bob",
    conversation_id := "c1", conversation_name := "general" }

/-- A reply-like message exactly 24 hours later. -/
def msgC8B4 : Message :=
  { id := "B4", created_at := 86400000, content := "yeah", author := "bob",
    conversation_id := "c1", conversation_name := "general" }

/-- The default strategy configuration. -/
def defaultConfig : StrategyConfig := {}

/-- An oracle whose every call throws. -/
def alwaysThrowOracle : ClassifyOracle := fun _ => Except.error "API down"

/-- Two ordinary (non-reaction) messages in one conversation. -/
def msgSegA : Message :=
  { id := "n0", created_at := 0, content := "first message", author := "bob",
    conversation_id := "conv", conversation_name := "general" }

def msgSegB : Message :=
  { id := "n1", created_at := 1000, content := "second message", author := "eve",
    conversation_id := "conv", conversation_name := "general" }

/-- A reaction message whose target exists nowhere. -/
def msgC3React : Message :=
  { id := "rx", created_at := 0, content := "thumbs", author := "carol",
    conversation_id := "conv", conversation_name := "general",
    isReaction := true, reactedToId := some "target" }

/-- C7 scenario: an open segment containing message "rx". -/
def segC7 : Segment :=
  { id := "seg-c7", conversationId := "conv", messageIds := ["rx"],
    status := "OPEN", summary := "s", participants := ["carol"],
    createdAt := 0, lastActivityAt := 0, messages := [msgC3React],
    annotations := [] }

def stC7 : ConversationState :=
  { conversationId := "conv", activeSegments := [segC7] }

/-- C7 scenario: a reaction whose target "rx" lies in `segC7`. -/
def msgC7RxB : Message :=
  { id := "rx2", created_at := 1000, content := "+1", author := "dave",
    conversation_id := "conv", conversation_name := "general",
    isReaction := true, reactedToId := some "rx" }

/-- C9 scenario: one active segment and a reply naming an unknown segment
identifier. -/
def segC9 : Segment :=
  { id := "abc123-uuid", conversationId := "conv", messageIds := ["n0"],
    status := "OPEN", summary := "s", participants := ["bob"],
    createdAt := 0, lastActivityAt := 0, messages := [msgSegA],
    annotations := [] }

def stC9 : ConversationState :=
  { conversationId := "conv", activeSegments := [segC9] }

/-- An oracle reply naming the unknown segment "zzzzzz" with a
non-INITIATES role. -/
def jC9dev : ClassificationJson :=
  { conversation := some "zzzzzz", role := some "DEVELOPS",
    confidence := some (4/5) }

/-- An oracle reply naming the unknown segment "zzzzzz" with role
INITIATES. -/
def jC9init : ClassificationJson :=
  { conversation := some "zzzzzz", role := some "INITIATES",
    confidence := some (4/5) }

/-- A decoded reply with neither a conversation nor a segment field. -/
def jC10empty : ClassificationJson := {}

/-- A decoded reply carrying only `segment: "NEW"`. -/
def jC10new : ClassificationJson := { segment := some "NEW" }

/-! ## Theorems -/

/-! ### Shared permutation helpers -/

theorem unitMsgs_nil : unitMsgs [] = [] := rfl

theorem unitMsgs_cons (u : Unit') (us : List Unit') :
    unitMsgs (u :: us) = u.messages ++ unitMsgs us := rfl

theorem unitMsgs_append (us vs : List Unit') :
    unitMsgs (us ++ vs) = unitMsgs us ++ unitMsgs vs := by
  simp [unitMsgs]

theorem createUnit_messages (ctr : Nat) (msgs : List Message) (i : Nat) :
    (createUnit ctr msgs i).messages = msgs := rfl

theorem append_singleton_perm (a b : List α) (m : α) :
    ((a ++ [m]) ++ b).Perm ((a ++ b) ++ [m]) := by
  rw [List.append_assoc a [m] b, List.append_assoc a b [m]]
  exact List.Perm.append_left a List.perm_append_comm

theorem unitMsgs_set_perm (m : Message) :
    ∀ (us : List Unit') (i : Nat) (u u' : Unit'),
      us.get? i = some u → u'.messages = u.messages ++ [m] →
      (unitMsgs (us.set i u')).Perm (unitMsgs us ++ [m]) := by
  intro us
  induction us with
  | nil => intro i u u' h _; simp at h
  | cons x xs ih =>
    intro i u u' h hm
    cases i with
    | zero =>
      simp only [List.get?] at h
      injection h with h
      subst h
      simp only [List.set, unitMsgs_cons, hm]
      exact append_singleton_perm x.messages (unitMsgs xs) m
    | succ j =>
      simp only [List.get?] at h
      simp only [List.set, unitMsgs_cons]
      rw [List.append_assoc]
      exact List.Perm.append_left x.messages (ih j u u' h hm)

theorem revFind_get? {p : α → Bool} :
    ∀ {l : List α} {i : Nat} {a : α}, revFind p l = some (i, a) → l.get? i = some a := by
  intro l
  induction l with
  | nil => intro i a h; simp [revFind] at h
  | cons x xs ih =>
    intro i a h
    simp only [revFind] at h
    cases hr : revFind p xs with
    | some pr =>
      rw [hr] at h
      obtain ⟨j, b⟩ := pr
      simp only [Option.some.injEq, Prod.mk.injEq] at h
      obtain ⟨hi, hb⟩ := h
      subst hi; subst hb
      exact ih hr
    | none =>
      rw [hr] at h
      by_cases hp : p x
      · simp only [hp, if_true, Option.some.injEq, Prod.mk.injEq] at h
        obtain ⟨hi, hb⟩ := h
        subst hi; subst hb
        rfl
      · simp [hp] at h

theorem get?_drop' : ∀ (l : List α) (n i : Nat), (l.drop n).get? i = l.get? (n + i) := by
  intro l
  induction l with
  | nil => intro n i; simp
  | cons x xs ih =>
    intro n i
    cases n with
    | zero => simp
    | succ k =>
      have heq : k + 1 + i = (k + i) + 1 := by omega
      rw [heq]
      exact ih k i

theorem findReopen_get? {msg : Message} {units : List Unit'} {idx : Nat} {u : Unit'}
    (h : findReopen msg units = some (idx, u)) : units.get? idx = some u := by
  unfold findReopen at h
  by_cases hg : jsTruthy msg.thread_id && decide (units.length > 0)
  · rw [if_pos hg] at h
    cases hr : revFind (fun u => u.messages.any
        (fun m => jsTruthy m.thread_id && m.thread_id == msg.thread_id))
        (takeRight 5 units) with
    | some pr =>
      obtain ⟨i, v⟩ := pr
      rw [hr] at h
      simp only [Option.some.injEq, Prod.mk.injEq] at h
      obtain ⟨hi, hv⟩ := h
      subst hv
      have hget := revFind_get? hr
      rw [takeRight] at hget
      rw [get?_drop'] at hget
      have hlen : (takeRight 5 units).length = units.length - (units.length - 5) := by
        simp [takeRight]
      rw [← hi]
      rw [hlen]
      have harith : units.length - (units.length - (units.length - 5)) + i =
          units.length - 5 + i := by omega
      rw [harith]
      exact hget
    | none => rw [hr] at h; exact absurd h (by simp)
  · rw [if_neg hg] at h
    exact absurd h (by simp)

theorem auStep_perm (st : AUState) (m : Message) :
    (unitMsgs (auStep st m).units ++ (auStep st m).current).Perm
      ((unitMsgs st.units ++ st.current) ++ [m]) := by
  obtain ⟨us, cur, c⟩ := st
  cases cur with
  | nil =>
    simp [auStep]
  | cons f rest =>
    show (unitMsgs (auStep ⟨us, f :: rest, c⟩ m).units ++
        (auStep ⟨us, f :: rest, c⟩ m).current).Perm _
    simp only [auStep]
    by_cases h1 : auExtend m (lastD (f :: rest) m) f (f :: rest)
    · simp only [if_pos h1]
      simp
    · simp only [if_neg h1]
      by_cases h2 : jsTruthy m.thread_id && (f :: rest).any
          (fun x => jsTruthy x.thread_id && x.thread_id == m.thread_id)
      · simp only [if_pos h2]
        simp
      · simp only [if_neg h2]
        cases hr : findReopen m us with
        | some pr =>
          obtain ⟨unitIndex, u⟩ := pr
          simp only []
          have hget := findReopen_get? hr
          have hset := unitMsgs_set_perm m us unitIndex u
            (createUnit c (u.messages ++ [m]) unitIndex) hget rfl
          refine (hset.append_right (f :: rest)).trans ?_
          exact append_singleton_perm (unitMsgs us) (f :: rest) m
        | none =>
          simp only []
          simp [unitMsgs_append, unitMsgs_cons, unitMsgs_nil, createUnit_messages]

theorem auRun_perm :
    ∀ (msgs : List Message) (st : AUState),
      (unitMsgs (auRun msgs st).units ++ (auRun msgs st).current).Perm
        ((unitMsgs st.units ++ st.current) ++ msgs) := by
  intro msgs
  induction msgs with
  | nil => intro st; simp [auRun]
  | cons m ms ih =>
    intro st
    have h2 := ih (auStep st m)
    have h1 := (auStep_perm st m).append_right ms
    refine (h2.trans h1).trans ?_
    rw [List.append_assoc]
    simp

/-- C2: the Atomic Unit Builder is total: the messages of the produced units
are a permutation of the input messages — every input message lands in
exactly one unit (counting multiplicity), none is duplicated (within or
across units, including units reopened by the thread-merge path) and none is
dropped. -/
theorem createAtomicUnits_covers_each_message_once (ctr : Nat) (messages : List Message) :
    (unitMsgs (createAtomicUnits ctr messages).1).Perm messages := by
  have hrun := auRun_perm (sortMessages messages) ⟨[], [], ctr⟩
  have hsort : (sortMessages messages).Perm messages :=
    List.perm_insertionSort _ messages
  simp only [unitMsgs_nil, List.nil_append] at hrun
  unfold createAtomicUnits
  cases hc : (auRun (sortMessages messages) ⟨[], [], ctr⟩).current with
  | nil =>
    simp only [hc]
    rw [hc] at hrun
    simp only [List.append_nil] at hrun
    exact hrun.trans hsort
  | cons f rest =>
    simp only [hc]
    rw [hc] at hrun
    rw [unitMsgs_append]
    simp only [unitMsgs_cons, unitMsgs_nil, List.append_nil, createUnit_messages]
    exact hrun.trans hsort

/-! ### Two-message builder lemmas -/

theorem sortMessages_pair {A B : Message} (hle : A.created_at ≤ B.created_at) :
    sortMessages [A, B] = [A, B] := by
  simp [sortMessages, List.insertionSort, List.orderedInsert, hle]

theorem two_msgs_extend (ctr : Nat) (A B : Message)
    (hle : A.created_at ≤ B.created_at)
    (hext : auExtend B A A [A] = true) :
    ((createAtomicUnits ctr [A, B]).1.map (·.messages)) = [[A, B]] := by
  unfold createAtomicUnits
  rw [sortMessages_pair hle]
  simp [auRun, auStep, lastD, hext, createUnit_messages]

theorem two_msgs_no_extend (ctr : Nat) (A B : Message)
    (hle : A.created_at ≤ B.created_at)
    (hext : auExtend B A A [A] = false)
    (hthread : jsTruthy B.thread_id = false) :
    ((createAtomicUnits ctr [A, B]).1.map (·.messages)) = [[A], [B]] := by
  unfold createAtomicUnits
  rw [sortMessages_pair hle]
  simp [auRun, auStep, lastD, hext, hthread, findReopen, createUnit_messages]

theorem auExtend_same_thread (A B : Message) (t : String) (ht : t ≠ "")
    (hA : A.thread_id = some t) (hB : B.thread_id = some t) :
    auExtend B A A [A] = true := by
  simp [auExtend, jsTruthy, hA, hB, ht]

/-! ### Atomic Unit Builder: thread-scenario and boundary theorems -/

/-- C6 as stated fails on the code: the thread rule of `createAtomicUnits`
compares `thread_id` only against other messages' `thread_id`, never against
a message's `id`.  With A (threadId null) at t = 0 and B (threadId = A.id)
two hours later (content matching no heuristic), B is not thread-matched and
the builder produces two separate units instead of one. -/
theorem c6_thread_root_scenario_two_units :
    (createAtomicUnits 0 [msgC6A, msgC6B]).1.map (·.messages.map (·.id)) =
      [["A"], ["B"]] := by decide

/-- C6 (amended): when the two messages carry the same non-null threadId —
i.e. both are replies of one thread — the Atomic Unit Builder places them
in the same unit with no time limit (the scenario's two-hour gap included);
a reply whose threadId equals the id of a thread-root message with null
threadId is not matched by the thread rule. -/
theorem c6_same_thread_id_one_unit (ctr : Nat) (A B : Message) (t : String)
    (ht : t ≠ "") (hA : A.thread_id = some t) (hB : B.thread_id = some t)
    (hle : A.created_at ≤ B.created_at) :
    ((createAtomicUnits ctr [A, B]).1.map (·.messages)) = [[A, B]] :=
  two_msgs_extend ctr A B hle (auExtend_same_thread A B t ht hA hB)

/-- Witness for C6 (amended) at the concrete two-hour-apart thread pair. -/
theorem c6_same_thread_id_one_unit_witness :
    ((createAtomicUnits 0 [msgC6T1, msgC6T2]).1.map (·.messages)) =
      [[msgC6T1, msgC6T2]] :=
  c6_same_thread_id_one_unit 0 msgC6T1 msgC6T2 "T" (by decide) rfl rfl (by decide)

theorem auExtend_false_two_min (A B : Message)
    (hd : B.created_at = A.created_at + 120000)
    (hth : B.thread_id = none)
    (hcont : isContinuationSignal B = false)
    (hrep : isReplyLikeMessage B A = false) :
    auExtend B A A [A] = false := by
  have hdiff : B.created_at - A.created_at = 120000 := by omega
  simp [auExtend, jsTruthy, hth, hcont, hrep, hdiff, ltMinutes]

theorem auExtend_false_one_min (A B : Message)
    (hd : B.created_at = A.created_at + 60000)
    (hauth : B.author ≠ A.author)
    (hth : B.thread_id = none)
    (hcont : isContinuationSignal B = false)
    (hrep : isReplyLikeMessage B A = false) :
    auExtend B A A [A] = false := by
  have hdiff : B.created_at - A.created_at = 60000 := by omega
  simp [auExtend, jsTruthy, hth, hcont, hrep, hdiff, ltMinutes, hauth]

theorem auExtend_false_three_min (A B : Message)
    (hd : B.created_at = A.created_at + 180000)
    (hth : B.thread_id = none)
    (hrep : isReplyLikeMessage B A = false) :
    auExtend B A A [A] = false := by
  have hdiff : B.created_at - A.created_at = 180000 := by omega
  simp [auExtend, jsTruthy, hth, hrep, hdiff, ltMinutes]

theorem auExtend_false_day (A B : Message)
    (hd : B.created_at = A.created_at + 86400000)
    (hth : B.thread_id = none) :
    auExtend B A A [A] = false := by
  have hdiff : B.created_at - A.created_at = 86400000 := by omega
  simp [auExtend, jsTruthy, hth, hdiff, ltMinutes]

/-- C8: every time-window comparison of the Atomic Unit Builder is strict, so
a message exactly at a rule's threshold does not extend the open unit: at
exactly 2.0 minutes for the same-author same-conversation rule, at exactly
1.0 minute for the same-conversation rule, at exactly 3.0 minutes for a
continuation signal, and at exactly 24 hours (1440 minutes) for a reply-like
message, the builder closes the unit and starts a new one (given, in each
case, that no other rule matches). -/
theorem c8_strict_time_window_boundaries :
    (∀ (ctr : Nat) (A B : Message),
      B.created_at = A.created_at + 120000 → B.author = A.author →
      B.conversation_id = A.conversation_id → B.thread_id = none →
      isContinuationSignal B = false → isReplyLikeMessage B A = false →
      ((createAtomicUnits ctr [A, B]).1.map (·.messages)) = [[A], [B]]) ∧
    (∀ (ctr : Nat) (A B : Message),
      B.created_at = A.created_at + 60000 → B.author ≠ A.author →
      B.conversation_id = A.conversation_id → B.thread_id = none →
      isContinuationSignal B = false → isReplyLikeMessage B A = false →
      ((createAtomicUnits ctr [A, B]).1.map (·.messages)) = [[A], [B]]) ∧
    (∀ (ctr : Nat) (A B : Message),
      B.created_at = A.created_at + 180000 →
      B.conversation_id = A.conversation_id → B.thread_id = none →
      isContinuationSignal B = true → isReplyLikeMessage B A = false →
      ((createAtomicUnits ctr [A, B]).1.map (·.messages)) = [[A], [B]]) ∧
    (∀ (ctr : Nat) (A B : Message),
      B.created_at = A.created_at + 86400000 →
      B.conversation_id = A.conversation_id → B.thread_id = none →
      isReplyLikeMessage B A = true →
      ((createAtomicUnits ctr [A, B]).1.map (·.messages)) = [[A], [B]]) := by
  refine ⟨?_, ?_, ?_, ?_⟩
  · intro ctr A B hd _ _ hth hcont hrep
    exact two_msgs_no_extend ctr A B (by omega)
      (auExtend_false_two_min A B hd hth hcont hrep) (by simp [jsTruthy, hth])
  · intro ctr A B hd hauth _ hth hcont hrep
    exact two_msgs_no_extend ctr A B (by omega)
      (auExtend_false_one_min A B hd hauth hth hcont hrep) (by simp [jsTruthy, hth])
  · intro ctr A B hd _ hth _ hrep
    exact two_msgs_no_extend ctr A B (by omega)
      (auExtend_false_three_min A B hd hth hrep) (by simp [jsTruthy, hth])
  · intro ctr A B hd _ hth _
    exact two_msgs_no_extend ctr A B (by omega)
      (auExtend_false_day A B hd hth) (by simp [jsTruthy, hth])

/-- Witness for C8 at the four concrete boundary inputs. -/
theorem c8_strict_time_window_boundaries_witness :
    ((createAtomicUnits 0 [msgC8A, msgC8B1]).1.map (·.messages)) =
      [[msgC8A], [msgC8B1]] ∧
    ((createAtomicUnits 0 [msgC8A, msgC8B2]).1.map (·.messages)) =
      [[msgC8A], [msgC8B2]] ∧
    ((createAtomicUnits 0 [msgC8A3, msgC8B3]).1.map (·.messages)) =
      [[msgC8A3], [msgC8B3]] ∧
    ((createAtomicUnits 0 [msgC8A, msgC8B4]).1.map (·.messages)) =
      [[msgC8A], [msgC8B4]] :=
  ⟨c8_strict_time_window_boundaries.1 0 msgC8A msgC8B1 (by decide) rfl rfl rfl
      (by decide) (by decide),
   c8_strict_time_window_boundaries.2.1 0 msgC8A msgC8B2 (by decide) (by decide)
      rfl rfl (by decide) (by decide),
   c8_strict_time_window_boundaries.2.2.1 0 msgC8A3 msgC8B3 (by decide) rfl rfl
      (by decide) (by decide),
   c8_strict_time_window_boundaries.2.2.2 0 msgC8A msgC8B4 (by decide) rfl rfl
      (by decide)⟩

/-! ### Unit Validator theorems -/

/-- C1: the Unit Validator is not total.  At the failing input — three units
and a single well-formed batch reply whose merge directives chain (unit 1
merges with 2, unit 2 merges with 3) — unit 3 is neither merged nor kept:
the input units carry messages m0, m1, m2, but the validated output covers
only m0 and m1, so message m2 is lost, violating the claimed
exactly-once coverage. -/
theorem c1_validator_loses_message :
    (unitMsgs unitsC1).map (·.id) = ["m0", "m1", "m2"] ∧
    (handleValidateUnits unitsC1 oracleC1 pairOracleNone 100).map
      (fun us => (unitMsgs us).map (·.id)) = Except.ok ["m0", "m1"] :=
  ⟨rfl, rfl⟩

/-- C4: a thrown oracle call does abort the validation run.  With two
batches, the first parsing to keep-everything and the second oracle call
throwing "network error", the whole run aborts with that error and produces
no validated units — while a merely unparseable first reply keeps that
batch's units unchanged and the run continues to completion. -/
theorem c4_network_failure_aborts_run :
    handleValidateUnits unitsTwelve oracleC4 pairOracleNone 100 =
      Except.error "network error" ∧
    (handleValidateUnits unitsTwelve oracleC4parse pairOracleNone 100).map
      (fun us => (unitMsgs us).map (·.id)) =
      Except.ok ["m0", "m1", "m2", "m3", "m4", "m5", "m6", "m7", "m8", "m9",
        "m10", "m11"] :=
  ⟨rfl, rfl⟩

theorem find?_map_set (k : Nat) (v : Unit') :
    ∀ br : List (Nat × Unit'), br.any (fun p => p.1 == k) = true →
      (br.map (fun p => if p.1 == k then (k, v) else p)).find?
        (fun p => p.1 == k) = some (k, v) := by
  intro br
  induction br with
  | nil => intro h; simp at h
  | cons p ps ih =>
    intro h
    by_cases hp : p.1 == k
    · simp only [List.map_cons, if_pos hp]
      rw [List.find?_cons_of_pos]
      simp
    · simp only [List.map_cons, if_neg hp]
      rw [List.find?_cons_of_neg _ (by simpa using hp)]
      apply ih
      simp only [List.any_cons, Bool.or_eq_true] at h
      rcases h with h1 | h2
      · exact absurd h1 hp
      · exact h2

theorem find?_append_last (k : Nat) (v : Unit') :
    ∀ br : List (Nat × Unit'), br.any (fun p => p.1 == k) = false →
      (br ++ [(k, v)]).find? (fun p => p.1 == k) = some (k, v) := by
  intro br
  induction br with
  | nil => intro _; simp
  | cons p ps ih =>
    intro h
    simp only [List.any_cons, Bool.or_eq_false_iff] at h
    rw [List.cons_append, List.find?_cons_of_neg _ (by simp [h.1])]
    exact ih (by simp [h.2])

/-- A write to the reconciliation map overrides whatever any earlier batch
stored at that original index. -/
theorem lookupIdx_setIdx (br : List (Nat × Unit')) (k : Nat) (v : Unit') :
    lookupIdx (setIdx br k v) k = some v := by
  unfold lookupIdx setIdx
  by_cases h : br.any (fun p => p.1 == k)
  · rw [if_pos h, find?_map_set k v br h]
    rfl
  · rw [if_neg h, find?_append_last k v br (Bool.eq_false_iff.mpr h)]
    rfl

/-- C5: overlap reconciliation is last-batch-wins.  First, a write to the
per-original-index reconciliation map (`batchResults.set`) overrides
whatever an earlier batch stored for that index.  Second, at the concrete
conflicting scenario — twelve units forming two overlapping batches
(units 1-10 and 8-12), where the earlier batch explicitly keeps units 8 and
9 and the later batch merges them — the final reconciled list contains the
merged unit (recorded as merged from original units 8 and 9) in their
place, and every message exactly once: the later-processed batch's merge
decision wins over the earlier keep. -/
theorem c5_later_batch_wins :
    (∀ (br : List (Nat × Unit')) (k : Nat) (v : Unit'),
      lookupIdx (setIdx br k v) k = some v) ∧
    (handleValidateUnits unitsTwelve oracleC5 pairOracleNone 100).map
      (fun us => us.map (fun u => (u.messages.map (·.id), u.mergedFrom))) =
    Except.ok
      [(["m0"], []), (["m1"], []), (["m2"], []), (["m3"], []), (["m4"], []),
       (["m5"], []), (["m6"], []), (["m7", "m8"], [8, 9]), (["m9"], []),
       (["m10"], []), (["m11"], [])] :=
  ⟨lookupIdx_setIdx, rfl⟩

/-! ### Segment State Machine helper lemmas -/

/-- Evaluation of a classification whose oracle call throws: the catch
produces the zero-confidence INITIATES fallback with a fresh segment. -/
theorem classifyWithLLM_error (ctr : Nat) (m : Message) (st : ConversationState)
    (rec prev : List Message) (cfg : StrategyConfig) (oracle : ClassifyOracle)
    (e : String) (h : oracle m = Except.error e) :
    classifyWithLLM ctr m st rec prev cfg oracle =
      (⟨m.id, m.conversation_id, none, (createSegment ctr m st).1.id,
        "INITIATES", 0, "LLM", "Fallback due to classification error: " ++ e,
        none, 0⟩,
       (createSegment ctr m st).2.1, (createSegment ctr m st).2.2) := by
  simp only [classifyWithLLM, h]

/-- Evaluation of a classification whose reply decodes but fails
normalization: the thrown parse error lands in the same fallback. -/
theorem classifyWithLLM_parse_error (ctr : Nat) (m : Message)
    (st : ConversationState) (rec prev : List Message) (cfg : StrategyConfig)
    (oracle : ClassifyOracle) (j : ClassificationJson) (e : String)
    (h : oracle m = Except.ok j)
    (hp : parseClassificationResponse j = Except.error e) :
    classifyWithLLM ctr m st rec prev cfg oracle =
      (⟨m.id, m.conversation_id, none, (createSegment ctr m st).1.id,
        "INITIATES", 0, "LLM", "Fallback due to classification error: " ++ e,
        none, 0⟩,
       (createSegment ctr m st).2.1, (createSegment ctr m st).2.2) := by
  simp only [classifyWithLLM, h, hp]

/-- A non-reaction step under an always-throwing oracle appends exactly one
INITIATES/0.0 annotation for the message. -/
theorem segStep_throwing (cfg : StrategyConfig) (oracle : ClassifyOracle)
    (e : String) (hor : ∀ m', oracle m' = Except.error e)
    (done : List Message) (m : Message) (σ : SegRunState)
    (hm : (m.isReaction && jsTruthy m.reactedToId) = false) :
    ∃ a, (segStep cfg oracle done m σ).anns = σ.anns ++ [a] ∧
      a.messageId = m.id ∧ a.role = "INITIATES" ∧ a.confidence = 0 ∧
      a.method = "LLM" := by
  unfold segStep
  simp only [checkStructuralSignals, hm, Bool.false_eq_true, if_false]
  rw [classifyWithLLM_error _ _ _ _ _ _ _ e (hor m)]
  exact ⟨_, rfl, rfl, rfl, rfl, rfl⟩

theorem segGo_throwing (cfg : StrategyConfig) (oracle : ClassifyOracle)
    (e : String) (hor : ∀ m', oracle m' = Except.error e) :
    ∀ (rem done : List Message) (σ : SegRunState),
      (∀ m ∈ rem, (m.isReaction && jsTruthy m.reactedToId) = false) →
      (segGo cfg oracle done rem σ).anns.map
          (fun a => (a.messageId, a.role, a.confidence, a.method)) =
        σ.anns.map (fun a => (a.messageId, a.role, a.confidence, a.method)) ++
          rem.map (fun m => (m.id, "INITIATES", (0 : ℚ), "LLM")) := by
  intro rem
  induction rem with
  | nil => intro done σ _; simp [segGo]
  | cons m ms ih =>
    intro done σ hall
    obtain ⟨a, ha, hid, hrole, hconf, hmeth⟩ :=
      segStep_throwing cfg oracle e hor done m σ (hall m (by simp))
    show (segGo cfg oracle (done ++ [m]) ms (segStep cfg oracle done m σ)).anns.map _ = _
    rw [ih (done ++ [m]) (segStep cfg oracle done m σ)
      (fun m' hm' => hall m' (by simp [hm']))]
    rw [ha]
    simp [hid, hrole, hconf, hmeth]

/-! ### C3: graceful degradation -/

/-- C3 as stated fails on the code: under an oracle that always throws, a
message flagged as a reaction takes the structural fast path and receives a
REACTS annotation, not the claimed INITIATES one. -/
theorem c3_reaction_not_initiates :
    ¬ (∀ a ∈ (segmentMessages [msgC3React] defaultConfig
        alwaysThrowOracle).annotations, a.role = "INITIATES") := by
  decide

/-- C3 (amended): if the oracle call for a message throws, the message is
annotated INITIATES with confidence 0.0 and a new segment seeded with
exactly that message; under an oracle that always throws, every message that
does not take the structural reaction fast path receives exactly one such
annotation (one annotation per input message, in order), and the pipeline
returns normally — no exception propagates. -/
theorem c3_graceful_degradation_amended :
    (∀ (ctr : Nat) (m : Message) (st : ConversationState)
       (rec prev : List Message) (cfg : StrategyConfig)
       (oracle : ClassifyOracle) (e : String),
      oracle m = Except.error e →
      classifyWithLLM ctr m st rec prev cfg oracle =
        (⟨m.id, m.conversation_id, none, (createSegment ctr m st).1.id,
          "INITIATES", 0, "LLM",
          "Fallback due to classification error: " ++ e, none, 0⟩,
         (createSegment ctr m st).2.1, (createSegment ctr m st).2.2) ∧
      (createSegment ctr m st).1.messageIds = [m.id] ∧
      (createSegment ctr m st).2.1.activeSegments =
        st.activeSegments ++ [(createSegment ctr m st).1]) ∧
    (∀ (messages : List Message) (cfg : StrategyConfig)
       (oracle : ClassifyOracle) (e : String),
      (∀ m', oracle m' = Except.error e) →
      (∀ m ∈ messages, (m.isReaction && jsTruthy m.reactedToId) = false) →
      (segmentMessages messages cfg oracle).annotations.map
          (fun a => (a.messageId, a.role, a.confidence, a.method)) =
        (sortMessages messages).map (fun m => (m.id, "INITIATES", (0 : ℚ), "LLM"))) := by
  constructor
  · intro ctr m st rec prev cfg oracle e h
    exact ⟨classifyWithLLM_error ctr m st rec prev cfg oracle e h, rfl, rfl⟩
  · intro messages cfg oracle e hor hall
    unfold segmentMessages
    rw [segGo_throwing cfg oracle e hor (sortMessages messages) [] ⟨[], [], 0, 0⟩
      (fun m hm => hall m ((List.perm_insertionSort _ messages).mem_iff.mp hm))]
    simp

/-- Witness for C3 (amended): a throwing classification of a concrete
message, and a two-message run under the always-throwing oracle. -/
theorem c3_graceful_degradation_amended_witness :
    (classifyWithLLM 0 msgSegA ⟨"conv", []⟩ [] [] defaultConfig
        alwaysThrowOracle =
      (⟨"n0", "conv", none, (createSegment 0 msgSegA ⟨"conv", []⟩).1.id,
        "INITIATES", 0, "LLM",
        "Fallback due to classification error: " ++ "API down", none, 0⟩,
       (createSegment 0 msgSegA ⟨"conv", []⟩).2.1,
       (createSegment 0 msgSegA ⟨"conv", []⟩).2.2)) ∧
    (segmentMessages [msgSegA, msgSegB] defaultConfig
        alwaysThrowOracle).annotations.map
        (fun a => (a.messageId, a.role, a.confidence, a.method)) =
      [("n0", "INITIATES", (0 : ℚ), "LLM"), ("n1", "INITIATES", (0 : ℚ), "LLM")] := by
  constructor
  · exact ((c3_graceful_degradation_amended.1 0 msgSegA ⟨"conv", []⟩ [] []
      defaultConfig alwaysThrowOracle "API down" rfl).1)
  · rw [c3_graceful_degradation_amended.2 [msgSegA, msgSegB] defaultConfig
      alwaysThrowOracle "API down" (fun _ => rfl) (by decide)]
    rfl

/-! ### C7: structural reaction fast path -/

/-- A reaction-flagged step never reaches the classification call. -/
theorem segStep_structural_calls (cfg : StrategyConfig) (oracle : ClassifyOracle)
    (done : List Message) (m : Message) (σ : SegRunState)
    (hm : (m.isReaction && jsTruthy m.reactedToId) = true) :
    (segStep cfg oracle done m σ).calls = σ.calls := by
  unfold segStep
  simp only [checkStructuralSignals, hm, if_true]
  cases hfind : findSegmentContaining (m.reactedToId.getD "")
      (getOrCreateState σ.states m.conversation_id).1 with
  | none => simp [hfind]
  | some seg => simp [hfind]

theorem segGo_structural_calls (cfg : StrategyConfig) (oracle : ClassifyOracle) :
    ∀ (rem done : List Message) (σ : SegRunState),
      (∀ m ∈ rem, (m.isReaction && jsTruthy m.reactedToId) = true) →
      (segGo cfg oracle done rem σ).calls = σ.calls := by
  intro rem
  induction rem with
  | nil => intro done σ _; rfl
  | cons m ms ih =>
    intro done σ hall
    show (segGo cfg oracle (done ++ [m]) ms (segStep cfg oracle done m σ)).calls = _
    rw [ih (done ++ [m]) (segStep cfg oracle done m σ)
      (fun m' hm' => hall m' (by simp [hm']))]
    exact segStep_structural_calls cfg oracle done m σ (hall m (by simp))

/-- C7: a message flagged as a reaction with a (truthy) target is annotated
by the structural fast path — role REACTS, confidence 1.0, method
STRUCTURAL, attached to the target — with no oracle call: when the target
lies in an active segment the annotation carries that segment's id and the
state is unchanged; a new segment is created only when no active segment
contains the target.  A run whose every message is such a reaction performs
zero oracle calls. -/
theorem c7_reaction_fast_path :
    (∀ (ctr : Nat) (m : Message) (st : ConversationState) (x : String),
      m.isReaction = true → m.reactedToId = some x → x ≠ "" →
      (∀ seg, findSegmentContaining x st = some seg →
        checkStructuralSignals ctr m st =
          (some ⟨m.id, m.conversation_id, some x, seg.id, "REACTS", 1,
            "STRUCTURAL", "Emoji reaction",
            some ⟨"Social", "Social-Appreciation"⟩, 0⟩, st, ctr)) ∧
      (findSegmentContaining x st = none →
        checkStructuralSignals ctr m st =
          (some ⟨m.id, m.conversation_id, some x, (createSegment ctr m st).1.id,
            "REACTS", 1, "STRUCTURAL", "Emoji reaction",
            some ⟨"Social", "Social-Appreciation"⟩, 0⟩,
           (createSegment ctr m st).2.1, (createSegment ctr m st).2.2) ∧
        (createSegment ctr m st).1.messageIds = [m.id])) ∧
    (∀ (messages : List Message) (cfg : StrategyConfig) (oracle : ClassifyOracle),
      (∀ m ∈ messages, (m.isReaction && jsTruthy m.reactedToId) = true) →
      (segmentMessages messages cfg oracle).oracleCalls = 0) := by
  constructor
  · intro ctr m st x hr hx hxe
    have hcond : (m.isReaction && jsTruthy m.reactedToId) = true := by
      simp [hr, hx, jsTruthy, hxe]
    constructor
    · intro seg hfind
      simp only [checkStructuralSignals, hcond, if_true, hx, Option.getD_some, hfind]
      simp [hr, jsTruthy, hxe]
    · intro hfind
      refine ⟨?_, rfl⟩
      simp only [checkStructuralSignals, hcond, if_true, hx, Option.getD_some, hfind]
      simp [hr, jsTruthy, hxe]
  · intro messages cfg oracle hall
    unfold segmentMessages
    exact segGo_structural_calls cfg oracle (sortMessages messages) [] ⟨[], [], 0, 0⟩
      (fun m hm => hall m ((List.perm_insertionSort _ messages).mem_iff.mp hm))

/-- Witness for C7: a reaction whose target lies in an open segment, and a
two-reaction run making zero oracle calls. -/
theorem c7_reaction_fast_path_witness :
    checkStructuralSignals 5 msgC7RxB stC7 =
      (some ⟨"rx2", "conv", some "rx", "seg-c7", "REACTS", 1, "STRUCTURAL",
        "Emoji reaction", some ⟨"Social", "Social-Appreciation"⟩, 0⟩, stC7, 5) ∧
    (segmentMessages [msgC3React, msgC7RxB] defaultConfig
      alwaysThrowOracle).oracleCalls = 0 := by
  constructor
  · exact (c7_reaction_fast_path.1 5 msgC7RxB stC7 "rx" rfl rfl
      (by decide)).1 segC7 rfl
  · exact c7_reaction_fast_path.2 [msgC3React, msgC7RxB] defaultConfig
      alwaysThrowOracle (by decide)

/-! ### C9: invalid segment reference fallback -/

/-- C9: when the decoded reply names a conversation identifier that is not
"NEW" and matches no active segment (in the non-previous-centric
strategies), the classifier attaches the message to the last — most
recently created — active segment with the reported confidence scaled by
0.7, provided the role is not INITIATES; otherwise (role INITIATES, or no
active segment to fall back to) it creates a new segment with confidence
scaled by 0.5.  In both cases a normal annotation is returned — the invalid
reference is never fatal. -/
theorem c9_invalid_reference_fallback (ctr : Nat) (m : Message)
    (st : ConversationState) (rec prev : List Message) (cfg : StrategyConfig)
    (oracle : ClassifyOracle) (j : ClassificationJson) (r : ParsedClassification)
    (hstrat : cfg.strategy ≠ "previous-centric")
    (horc : oracle m = Except.ok j)
    (hparse : parseClassificationResponse j = Except.ok r)
    (hnew : r.conversation ≠ "NEW")
    (hfind : findSegmentByShortId r.conversation st = none) :
    (∀ fb, st.activeSegments.getLast? = some fb → r.role ≠ "INITIATES" →
      classifyWithLLM ctr m st rec prev cfg oracle =
        (⟨m.id, m.conversation_id, r.attachesTo, fb.id, r.role,
          r.confidence * (7/10), "LLM",
          r.reasoning ++ " (attached to most recent segment due to invalid ID " ++
            r.conversation ++ ")", r.speechAct, 0⟩, st, ctr)) ∧
    ((st.activeSegments.getLast? = none ∨ r.role = "INITIATES") →
      classifyWithLLM ctr m st rec prev cfg oracle =
        (⟨m.id, m.conversation_id, none, (createSegment ctr m st).1.id, r.role,
          r.confidence * (1/2), "LLM",
          r.reasoning ++ " (new segment: invalid ID " ++ r.conversation ++ ")",
          r.speechAct, 0⟩,
         (createSegment ctr m st).2.1, (createSegment ctr m st).2.2)) := by
  have hs : (cfg.strategy == "previous-centric") = false := by
    simp [hstrat]
  have hn : (r.conversation == "NEW") = false := by
    simp [hnew]
  constructor
  · intro fb hlast hrole
    have hb : (r.role != "INITIATES") = true := by simp [hrole]
    simp only [classifyWithLLM, horc, hparse, hs, hn, hfind, hlast, hb,
      Bool.false_eq_true, if_false, if_true]
  · intro hcase
    rcases hcase with hnone | hinit
    · simp only [classifyWithLLM, horc, hparse, hs, hn, hfind, hnone,
        Bool.false_eq_true, if_false]
    · cases hlast : st.activeSegments.getLast? with
      | none =>
        simp only [classifyWithLLM, horc, hparse, hs, hn, hfind, hlast,
          Bool.false_eq_true, if_false]
      | some fb =>
        have hb : (r.role != "INITIATES") = false := by simp [hinit]
        simp only [classifyWithLLM, horc, hparse, hs, hn, hfind, hlast, hb,
          Bool.false_eq_true, if_false]

/-- Witness for C9: a one-segment state and replies naming the unknown
identifier "zzzzzz" — once with role DEVELOPS (fallback attach, 0.7) and
once with role INITIATES (new segment, 0.5). -/
theorem c9_invalid_reference_fallback_witness :
    (classifyWithLLM 7 msgSegB stC9 [] [] defaultConfig
        (fun _ => Except.ok jC9dev) =
      (⟨"n1", "conv", none, "abc123-uuid", "DEVELOPS", (4/5) * (7/10), "LLM",
        "" ++ " (attached to most recent segment due to invalid ID " ++
          "zzzzzz" ++ ")", none, 0⟩, stC9, 7)) ∧
    (classifyWithLLM 7 msgSegB stC9 [] [] defaultConfig
        (fun _ => Except.ok jC9init) =
      (⟨"n1", "conv", none, (createSegment 7 msgSegB stC9).1.id, "INITIATES",
        (4/5) * (1/2), "LLM",
        "" ++ " (new segment: invalid ID " ++ "zzzzzz" ++ ")", none, 0⟩,
       (createSegment 7 msgSegB stC9).2.1, (createSegment 7 msgSegB stC9).2.2)) := by
  constructor
  · exact (c9_invalid_reference_fallback 7 msgSegB stC9 [] [] defaultConfig
      (fun _ => Except.ok jC9dev) jC9dev
      ⟨"zzzzzz", false, none, "DEVELOPS", 4/5, "", none⟩
      (by decide) rfl rfl (by decide) rfl).1 segC9 rfl (by decide)
  · exact (c9_invalid_reference_fallback 7 msgSegB stC9 [] [] defaultConfig
      (fun _ => Except.ok jC9init) jC9init
      ⟨"zzzzzz", false, none, "INITIATES", 4/5, "", none⟩
      (by decide) rfl rfl (by decide) rfl).2 (Or.inr rfl)

/-! ### C10: reply normalization defaults -/

/-- C10: a decoded reply with neither a truthy `conversation` nor a truthy
`segment` field makes `parseClassificationResponse` throw, and the message
is handled by the oracle-failure path (new segment, role INITIATES,
confidence 0.0).  When one of the fields is present, a missing `role`
defaults to DEVELOPS, a missing `confidence` defaults to 0.5 and a missing
`attachesTo` defaults to null in the normalized result — and, for a reply
carrying only `segment: "NEW"`, those defaults are exactly what the
resulting annotation carries. -/
theorem c10_response_normalization :
    (∀ j : ClassificationJson,
      jsTruthy (if jsTruthy j.conversation then j.conversation else j.segment) =
        false →
      parseClassificationResponse j =
        Except.error "Missing required fields in LLM response") ∧
    (∀ (ctr : Nat) (m : Message) (st : ConversationState)
       (rec prev : List Message) (cfg : StrategyConfig) (j : ClassificationJson),
      jsTruthy (if jsTruthy j.conversation then j.conversation else j.segment) =
        false →
      classifyWithLLM ctr m st rec prev cfg (fun _ => Except.ok j) =
        (⟨m.id, m.conversation_id, none, (createSegment ctr m st).1.id,
          "INITIATES", 0, "LLM",
          "Fallback due to classification error: " ++
            "Missing required fields in LLM response", none, 0⟩,
         (createSegment ctr m st).2.1, (createSegment ctr m st).2.2)) ∧
    (∀ (j : ClassificationJson) (r : ParsedClassification),
      parseClassificationResponse j = Except.ok r →
      r.role = j.role.getD "DEVELOPS" ∧ r.confidence = j.confidence.getD (1/2) ∧
      r.attachesTo = j.attachesTo) ∧
    (∀ (ctr : Nat) (m : Message) (st : ConversationState)
       (rec prev : List Message),
      classifyWithLLM ctr m st rec prev defaultConfig
          (fun _ => Except.ok jC10new) =
        (⟨m.id, m.conversation_id, none, (createSegment ctr m st).1.id,
          "DEVELOPS", 1/2, "LLM", "", none, 0⟩,
         (createSegment ctr m st).2.1, (createSegment ctr m st).2.2)) := by
  have hthrow : ∀ j : ClassificationJson,
      jsTruthy (if jsTruthy j.conversation then j.conversation else j.segment) =
        false →
      parseClassificationResponse j =
        Except.error "Missing required fields in LLM response" := by
    intro j h
    simp only [parseClassificationResponse, h, Bool.not_false, if_true]
  refine ⟨hthrow, ?_, ?_, ?_⟩
  · intro ctr m st rec prev cfg j h
    exact classifyWithLLM_parse_error ctr m st rec prev cfg _ j
      "Missing required fields in LLM response" rfl (hthrow j h)
  · intro j r h
    by_cases hc : jsTruthy
        (if jsTruthy j.conversation then j.conversation else j.segment)
    · simp only [parseClassificationResponse, hc, Bool.not_true,
        Bool.false_eq_true, if_false, Except.ok.injEq] at h
      rw [← h]
      exact ⟨rfl, rfl, rfl⟩
    · rw [hthrow j (by simpa using hc)] at h
      exact absurd h (by simp)
  · intro ctr m st rec prev
    rfl

/-- Witness for C10: the empty reply throws and falls back to INITIATES/0.0;
the reply carrying only `segment: "NEW"` normalizes and annotates with the
DEVELOPS/0.5/null defaults. -/
theorem c10_response_normalization_witness :
    parseClassificationResponse jC10empty =
      Except.error "Missing required fields in LLM response" ∧
    classifyWithLLM 0 msgSegA ⟨"conv", []⟩ [] [] defaultConfig
        (fun _ => Except.ok jC10empty) =
      (⟨"n0", "conv", none, (createSegment 0 msgSegA ⟨"conv", []⟩).1.id,
        "INITIATES", 0, "LLM",
        "Fallback due to classification error: " ++
          "Missing required fields in LLM response", none, 0⟩,
       (createSegment 0 msgSegA ⟨"conv", []⟩).2.1,
       (createSegment 0 msgSegA ⟨"conv", []⟩).2.2) ∧
    ((⟨"NEW", false, none, "DEVELOPS", 1/2, "", none⟩ :
        ParsedClassification).role = jC10new.role.getD "DEVELOPS" ∧
      (⟨"NEW", false, none, "DEVELOPS", 1/2, "", none⟩ :
        ParsedClassification).confidence = jC10new.confidence.getD (1/2) ∧
      (⟨"NEW", false, none, "DEVELOPS", 1/2, "", none⟩ :
        ParsedClassification).attachesTo = jC10new.attachesTo) ∧
    classifyWithLLM 0 msgSegA ⟨"conv", []⟩ [] [] defaultConfig
        (fun _ => Except.ok jC10new) =
      (⟨"n0", "conv", none, (createSegment 0 msgSegA ⟨"conv", []⟩).1.id,
        "DEVELOPS", 1/2, "LLM", "", none, 0⟩,
       (createSegment 0 msgSegA ⟨"conv", []⟩).2.1,
       (createSegment 0 msgSegA ⟨"conv", []⟩).2.2) :=
  ⟨c10_response_normalization.1 jC10empty (by decide),
   c10_response_normalization.2.1 0 msgSegA ⟨"conv", []⟩ [] [] defaultConfig
     jC10empty (by decide),
   c10_response_normalization.2.2.1 jC10new
     ⟨"NEW", false, none, "DEVELOPS", 1/2, "", none⟩ rfl,
   c10_response_normalization.2.2.2 0 msgSegA ⟨"conv", []⟩ [] []⟩

end StackGrouping
